import Mathlib

/-!
Verification of the FlipperAI dashboard client ("FlipBot AI").

The repository is a React single-page dashboard (src/frontend/src/App.js and a
near-identical earlier draft src/unnamed/part_000).  This file gives a shallow
embedding of the client-side data model and the operations the specification
talks about: the sort comparator `sortVehicles`, the client-side filter
`filterVehicles`, the saved-vehicles toggle `toggleSaveVehicle`, the deals
loader `loadDeals`, the search dispatcher `handleSearch`, the status mutation
`updateVehicleStatus`, and the four scrape handlers (`handleScrape`,
`handleScrapeComprehensive`, `handleScrapeEnthusiast`,
`handleScrapePrivateParty`), unified here over a `ScrapeOp` parameter since the
four handlers differ only in endpoint, default seller type, max_results and
status messages.

Modelling conventions:
* JS field values are modelled by `JSVal`: `absent` (absent property /
  `undefined`), `jnull` (explicit `null`), numbers as rationals, and strings.
  IEEE-754 rounding is not modelled; the claims under consideration only
  concern comparisons and defaulting, which doubles perform exactly on the
  magnitudes involved.
* `parseFloat` / `parseInt` / string `ToNumber` are modelled for decimal
  literals (optional sign, digits, optional fraction); exponents, `Infinity`
  and hex are not modelled.  `none` plays the role of `NaN`.
* `Array.prototype.sort(cmp)` is a stable comparison sort; it is modelled by
  the stable `List.insertionSort` on the relation "comparator result is not
  positive", with a `NaN` comparator result treated as a tie, matching engines
  that keep order whenever the comparator does not return a positive number.
* Network calls are modelled by explicit request values and by state
  transition functions parametrised over a `FetchResult` outcome.
-/

inductive JSVal where
  | absent
  | jnull
  | num (q : ℚ)
  | str (s : String)
  deriving DecidableEq, Repr

/-- JS truthiness of a value (`undefined`, `null`, `0` and `""` are falsy). -/
def truthy : JSVal → Bool
  | .absent => false
  | .jnull => false
  | .num q => q != 0
  | .str s => s != ""

/-- The JS `x || y` operator. -/
def jsOr (a b : JSVal) : JSVal := if truthy a then a else b

/-- The loose `x == null` test of the sort comparator: true for both
`undefined` and `null`. -/
def isNullish : JSVal → Bool
  | .absent => true
  | .jnull => true
  | _ => false

def digitsToNat (ds : List Char) : ℕ := ds.foldl (fun n c => 10 * n + (c.toNat - 48)) 0

/-- JS `String.prototype.trim`: strip whitespace from both ends. -/
def jsTrim (s : String) : String :=
  ⟨((s.data.dropWhile Char.isWhitespace).reverse.dropWhile Char.isWhitespace).reverse⟩

/-- Parse a decimal literal prefix `digits [. digits]`; `none` models `NaN`
(no digits at all).  Trailing garbage is ignored, as `parseFloat` does. -/
def parseDecPrefix (cs : List Char) : Option ℚ :=
  let ip := cs.takeWhile Char.isDigit
  match cs.dropWhile Char.isDigit with
  | '.' :: r2 =>
      let fp := r2.takeWhile Char.isDigit
      if ip.isEmpty ∧ fp.isEmpty then none
      else some ((digitsToNat ip : ℚ) + (digitsToNat fp : ℚ) / (10 ^ fp.length))
  | _ => if ip.isEmpty then none else some (digitsToNat ip)

/-- Parse a decimal literal spanning the whole input; `none` models `NaN`. -/
def parseDecAll (cs : List Char) : Option ℚ :=
  let ip := cs.takeWhile Char.isDigit
  match cs.dropWhile Char.isDigit with
  | [] => if ip.isEmpty then none else some (digitsToNat ip)
  | '.' :: r2 =>
      let fp := r2.takeWhile Char.isDigit
      if ¬ (r2.dropWhile Char.isDigit).isEmpty then none
      else if ip.isEmpty ∧ fp.isEmpty then none
      else some ((digitsToNat ip : ℚ) + (digitsToNat fp : ℚ) / (10 ^ fp.length))
  | _ => none

/-- JS `parseFloat` on a string (restricted to decimal literals): skip leading
whitespace, optional sign, then the longest numeric prefix; `none` is `NaN`. -/
def jsParseFloat (s : String) : Option ℚ :=
  match s.data.dropWhile Char.isWhitespace with
  | '-' :: r => (parseDecPrefix r).map (fun q => -q)
  | '+' :: r => parseDecPrefix r
  | cs => parseDecPrefix cs

/-- JS `parseInt` (radix 10, restricted to decimal digits): skip leading
whitespace, optional sign, then the longest digit prefix; `none` is `NaN`. -/
def jsParseInt (s : String) : Option ℚ :=
  let core : List Char → Option ℚ := fun cs =>
    let ip := cs.takeWhile Char.isDigit
    if ip.isEmpty then none else some (digitsToNat ip)
  match s.data.dropWhile Char.isWhitespace with
  | '-' :: r => (core r).map (fun q => -q)
  | '+' :: r => core r
  | cs => core cs

/-- JS `ToNumber` on a string: trimmed empty string is `0`, otherwise the whole
trimmed string must be a numeric literal, else `NaN` (`none`). -/
def jsToNumberStr (s : String) : Option ℚ :=
  let cs := ((s.data.dropWhile Char.isWhitespace).reverse.dropWhile Char.isWhitespace).reverse
  match cs with
  | [] => some 0
  | '-' :: r => (parseDecAll r).map (fun q => -q)
  | '+' :: r => parseDecAll r
  | _ => parseDecAll cs

/-- JS `ToNumber` coercion of a value, as performed by the relational and
subtraction operators.  `none` models `NaN`.  Note `null` coerces to `0` while
`undefined` coerces to `NaN`. -/
def toNumber : JSVal → Option ℚ
  | .absent => none
  | .jnull => some 0
  | .num q => some q
  | .str s => jsToNumberStr s

/-- `parseFloat(v)` on an arbitrary value (via `ToString`): `"null"` and
`"undefined"` do not parse. -/
def parseFloatVal : JSVal → Option ℚ
  | .absent => none
  | .jnull => none
  | .num q => some q
  | .str s => jsParseFloat s

/-- The sort comparator's numeric coercion `parseFloat(v) || 0`. -/
def coerce0 (v : JSVal) : ℚ := (parseFloatVal v).getD 0

/-- JS subtraction `a - b` of two values: `ToNumber` both; `none` is `NaN`. -/
def jsSub (a b : JSVal) : Option ℚ :=
  match toNumber a, toNumber b with
  | some x, some y => some (x - y)
  | _, _ => none

/-- JS relational `a > n` against an already computed number (`none` = `NaN`);
any comparison involving `NaN` is false. -/
def jsGTn (a : JSVal) (n : Option ℚ) : Bool :=
  match toNumber a, n with
  | some x, some y => y < x
  | _, _ => false

/-- JS relational `a < n` against an already computed number (`none` = `NaN`). -/
def jsLTn (a : JSVal) (n : Option ℚ) : Bool :=
  match toNumber a, n with
  | some x, some y => x < y
  | _, _ => false

/-- A vehicle as consumed by the dashboard.  `id` is the stable identifier;
every other field may be absent (`absent`) or null, exactly as the client
tolerates. -/
structure Vehicle where
  id : ℕ
  year : JSVal := .absent
  make : JSVal := .absent
  model : JSVal := .absent
  trim : JSVal := .absent
  mileage : JSVal := .absent
  location : JSVal := .absent
  source : JSVal := .absent
  seller_type : JSVal := .absent
  asking_price : JSVal := .absent
  market_value : JSVal := .absent
  est_profit : JSVal := .absent
  roi_percent : JSVal := .absent
  flip_score : JSVal := .absent
  status : JSVal := .absent
  url : JSVal := .absent
  deriving DecidableEq, Repr

/-- Dynamic property access `a[sortBy]`; an unknown property is `undefined`. -/
def getField (v : Vehicle) (f : String) : JSVal :=
  if f = "id" then .num v.id
  else if f = "year" then v.year
  else if f = "make" then v.make
  else if f = "model" then v.model
  else if f = "trim" then v.trim
  else if f = "mileage" then v.mileage
  else if f = "location" then v.location
  else if f = "source" then v.source
  else if f = "seller_type" then v.seller_type
  else if f = "asking_price" then v.asking_price
  else if f = "market_value" then v.market_value
  else if f = "est_profit" then v.est_profit
  else if f = "roi_percent" then v.roi_percent
  else if f = "flip_score" then v.flip_score
  else if f = "status" then v.status
  else if f = "url" then v.url
  else .absent

/-- The six fields the comparator coerces with `parseFloat(v) || 0`. -/
def numericFields : List String :=
  ["asking_price", "est_profit", "roi_percent", "flip_score", "year", "mileage"]

/-- The comparator body of `sortVehicles` (App.js lines 152-174).  `some q` is
the numeric comparator result, `none` is `NaN` (only possible for fields
outside `numericFields`). -/
def vehicleCmp (sortBy sortOrder : String) (a b : Vehicle) : Option ℚ :=
  let aVal := getField a sortBy
  let bVal := getField b sortBy
  if isNullish aVal ∧ isNullish bVal then some 0
  else if isNullish aVal then some (if sortOrder = "desc" then 1 else -1)
  else if isNullish bVal then some (if sortOrder = "desc" then -1 else 1)
  else if sortBy ∈ numericFields then
    some (if sortOrder = "desc" then coerce0 bVal - coerce0 aVal
          else coerce0 aVal - coerce0 bVal)
  else if sortOrder = "desc" then jsSub bVal aVal
  else jsSub aVal bVal

/-- "a may stay before b": the comparator result is not positive.  A `NaN`
result is treated as a tie (order kept). -/
def cmpLe (sortBy sortOrder : String) (a b : Vehicle) : Bool :=
  match vehicleCmp sortBy sortOrder a b with
  | some q => q ≤ 0
  | none => true

/-- `sortVehicles` as a pure function of the sort state: a stable sort of the
list by the comparator. -/
def sortVehicles (sortBy sortOrder : String) (l : List Vehicle) : List Vehicle :=
  List.insertionSort (fun a b => cmpLe sortBy sortOrder a b = true) l

/-- The ephemeral filter UI state; each field is the raw input string and the
empty string means "not set" (JS falsiness of the string). -/
structure Filters where
  zipCode : String := ""
  distance : String := ""
  priceMax : String := ""
  yearMin : String := ""
  minProfit : String := ""
  deriving DecidableEq, Repr

/-- The predicate of `filterVehicles` (App.js lines 176-183). -/
def keepVehicle (fl : Filters) (v : Vehicle) : Bool :=
  if fl.priceMax ≠ "" ∧ jsGTn v.asking_price (jsParseFloat fl.priceMax) then false
  else if fl.yearMin ≠ "" ∧ jsLTn v.year (jsParseInt fl.yearMin) then false
  else if fl.minProfit ≠ "" ∧ jsLTn (jsOr v.est_profit (.num 0)) (jsParseFloat fl.minProfit) then false
  else true

def filterVehicles (fl : Filters) (l : List Vehicle) : List Vehicle :=
  l.filter (keepVehicle fl)

/-- `toggleSaveVehicle`: flip membership of the id in the saved-set. -/
def toggleSaveVehicle (saved : Finset ℕ) (vehicleId : ℕ) : Finset ℕ :=
  if vehicleId ∈ saved then saved.erase vehicleId else insert vehicleId saved

/-- The saved-vehicles state: the in-memory set plus the value persisted in
local storage under the fixed key 'savedVehicles' (membership only; JSON
serialisation is not modelled). -/
structure SavedState where
  savedVehicles : Finset ℕ
  storage : Finset ℕ
  deriving DecidableEq

/-- One `toggleSaveVehicle` click: compute the new set, store it in component
state and immediately persist it. -/
def toggleSaveStep (st : SavedState) (vehicleId : ℕ) : SavedState :=
  let newSaved := toggleSaveVehicle st.savedVehicles vehicleId
  ⟨newSaved, newSaved⟩

/-- Outcome of an awaited network call. -/
inductive FetchResult (α : Type) where
  | ok (data : α)
  | err
  deriving DecidableEq

/-- The component state touched by the operations under specification. -/
structure AppState where
  vehicles : List Vehicle
  loading : Bool
  scrapingLoading : Bool
  scrapingStatus : Option String
  searchQuery : String
  filters : Filters
  deriving DecidableEq

/-- The request issued by `loadDeals`: path and query parameters. -/
def loadDealsRequest : String × List (String × String) :=
  ("/deals", [("limit", "20")])

/-- `setLoading(true)` at the start of `loadDeals`. -/
def loadDealsStart (st : AppState) : AppState := {st with loading := true}

/-- Completion of `loadDeals`: on success replace the vehicle list, on failure
only log; the finally-block resets the loading flag in both cases. -/
def loadDealsComplete (st : AppState) (r : FetchResult (List Vehicle)) : AppState :=
  match r with
  | .ok vs => {st with vehicles := vs, loading := false}
  | .err => {st with loading := false}

/-- A whole `loadDeals` execution with outcome `r`. -/
def loadDealsRun (st : AppState) (r : FetchResult (List Vehicle)) : AppState :=
  loadDealsComplete (loadDealsStart st) r

/-- What `handleSearch` decides to do: fall back to `loadDeals` or issue a
GET /api/search with the given query parameters. -/
inductive SearchEffect where
  | deals
  | searchReq (params : List (String × String))
  deriving DecidableEq, Repr

/-- The query parameters `handleSearch` appends to /api/search, in source
order; each filter is appended only when its string is truthy.
(URL-encoding of the query is not modelled.) -/
def searchParams (q : String) (fl : Filters) : List (String × String) :=
  [("q", q)]
    ++ (if fl.zipCode ≠ "" then [("zip_code", fl.zipCode)] else [])
    ++ (if fl.distance ≠ "" then [("distance", fl.distance)] else [])
    ++ (if fl.priceMax ≠ "" then [("price_max", fl.priceMax)] else [])
    ++ (if fl.yearMin ≠ "" then [("year_min", fl.yearMin)] else [])

/-- The dispatch at the top of `handleSearch` (App.js lines 128-150). -/
def handleSearchEffect (st : AppState) : SearchEffect :=
  if jsTrim st.searchQuery = "" then .deals
  else .searchReq (searchParams st.searchQuery st.filters)

/-- Completion of the non-empty-query branch of `handleSearch`: on success the
response replaces the vehicle list; the finally-block resets `loading`. -/
def searchComplete (st : AppState) (r : FetchResult (List Vehicle)) : AppState :=
  match r with
  | .ok vs => {st with vehicles := vs, loading := false}
  | .err => {st with loading := false}

/-- The PUT request of `updateVehicleStatus`. -/
structure PutRequest where
  path : String
  status : String
  deriving DecidableEq, Repr

def updateStatusRequest (vehicleId : ℕ) (status : String) : PutRequest :=
  ⟨"/vehicles/" ++ toString vehicleId, status⟩

/-- A whole `updateVehicleStatus` execution: on success of the PUT, the
subsequent `loadDeals()` run (with its own outcome) resynchronises the list;
on failure the error is only logged and no state is touched. -/
def updateVehicleStatusRun (st : AppState) (r : FetchResult Unit)
    (dealsResult : FetchResult (List Vehicle)) : AppState :=
  match r with
  | .ok _ => loadDealsRun st dealsResult
  | .err => st

/-- The four live-scrape operations. -/
inductive ScrapeOp where
  | quick
  | comprehensive
  | enthusiast
  | privateParty
  deriving DecidableEq, Repr

def scrapeEndpoint : ScrapeOp → String
  | .quick => "/scrape/quick"
  | .comprehensive => "/scrape/comprehensive"
  | .enthusiast => "/scrape/enthusiast"
  | .privateParty => "/scrape/private-party"

def scrapeMaxResults : ScrapeOp → ℕ
  | .quick => 15
  | .comprehensive => 20
  | .enthusiast => 15
  | .privateParty => 25

/-- The per-operation default substituted for a falsy `seller_type`. -/
def defaultSellerType : ScrapeOp → String
  | .quick => "unknown"
  | .comprehensive => "unknown"
  | .enthusiast => "auction"
  | .privateParty => "private"

/-- The in-flight status message set at the start of each scrape. -/
def scrapeStartMsg : ScrapeOp → String
  | .quick => "Scraping live listings..."
  | .comprehensive => "Scraping across all major platforms..."
  | .enthusiast => "Scraping auction and enthusiast platforms..."
  | .privateParty => "Scraping private party listings..."

/-- The POST request a scrape handler issues, or no request at all when the
guard `if (!searchQuery.trim()) return;` fires. -/
inductive ScrapeRequest where
  | noRequest
  | post (endpoint : String) (query : String) (location : String) (maxResults : ℕ)
  deriving DecidableEq, Repr

def scrapeRequest (op : ScrapeOp) (st : AppState) : ScrapeRequest :=
  if jsTrim st.searchQuery = "" then .noRequest
  else .post (scrapeEndpoint op) st.searchQuery st.filters.zipCode (scrapeMaxResults op)

/-- The state after the guard and the two initial `set` calls of a scrape
handler; with an empty trimmed query the handler returns before touching
anything. -/
def scrapeStart (op : ScrapeOp) (st : AppState) : AppState :=
  if jsTrim st.searchQuery = "" then st
  else {st with scrapingLoading := true, scrapingStatus := some (scrapeStartMsg op)}

/-- The body of a scrape response; `vehicles` is optional because the client
guards on its presence. -/
structure ScrapeResponse where
  vehicles_found : ℤ
  vehicles : Option (List Vehicle)
  deriving DecidableEq

/-- One scraped vehicle after the client-side normalisation spread. -/
def normalizeScraped (d : String) (v : Vehicle) : Vehicle :=
  {v with seller_type := jsOr v.seller_type (.str d),
          source := jsOr v.source (.str "unknown"),
          status := jsOr v.status (.str "new")}

/-- The vehicle list displayed after a successful scrape: the normalised
scraped vehicles when the response carries a non-empty array, otherwise the
empty list — never the previous list. -/
def scrapeResultVehicles (op : ScrapeOp) (resp : ScrapeResponse) : List Vehicle :=
  match resp.vehicles with
  | some vs =>
      if vs ≠ [] then vs.map (normalizeScraped (defaultSellerType op))
      else []
  | none => []

/-- The success message shown after a scrape (duration formatting is not
modelled). -/
def scrapeSuccessMsg (op : ScrapeOp) (resp : ScrapeResponse) : String :=
  "Found " ++ toString resp.vehicles_found ++ " vehicles (" ++ scrapeEndpoint op ++ ")"

/-- State at the end of a successful scrape: list replaced, flag reset by the
finally-block, status message updated. -/
def scrapeSuccess (op : ScrapeOp) (st : AppState) (resp : ScrapeResponse) : AppState :=
  {st with vehicles := scrapeResultVehicles op resp,
           scrapingLoading := false,
           scrapingStatus := some (scrapeSuccessMsg op resp)}

/-! ### Concrete sample data used by the scenario and counterexample theorems -/

/-- A vehicle with a present (numeric) asking price. -/
def cexPresent : Vehicle := { id := 1, asking_price := .num 5 }

/-- A vehicle whose asking price is explicitly null. -/
def cexNull : Vehicle := { id := 2, asking_price := .jnull }

/-- Scenario vehicle 1 of the specification. -/
def scenV1 : Vehicle := { id := 1, asking_price := .num 30000, est_profit := .num 4000 }

/-- Scenario vehicle 2 of the specification. -/
def scenV2 : Vehicle := { id := 2, asking_price := .num 55000, est_profit := .num 9000 }

/-- A vehicle with an explicitly null asking price (for the filter claims). -/
def c9NullPrice : Vehicle := { id := 9, asking_price := .jnull }

/-- A vehicle with every optional field absent. -/
def c9Absent : Vehicle := { id := 10 }

/-- Vehicles with present years (for the comparator claims). -/
def wYear1 : Vehicle := { id := 3, year := .num 2015 }

def wYear2 : Vehicle := { id := 4, year := .num 2020 }

/-- A state whose search query is whitespace-only. -/
def stEmptyQuery : AppState :=
  { vehicles := [cexPresent], loading := false, scrapingLoading := false,
    scrapingStatus := none, searchQuery := "   ", filters := {} }

/-! ### Helper lemmas -/

lemma pairwise_orderedInsert (r : Vehicle → Vehicle → Prop) [DecidableRel r]
    (p : Vehicle → Vehicle → Prop) (a : Vehicle) :
    ∀ l : List Vehicle, l.Pairwise p →
      (∀ x ∈ l, ¬ r a x → p x a) →
      (∀ x ∈ l, r a x → p a x) →
      (∀ x ∈ l, r a x → ∀ y ∈ l, p x y → p a y) →
      (l.orderedInsert r a).Pairwise p
  | [], _, _, _, _ => by simp
  | b :: t, hp, hpass, hstop, hprop => by
    rw [List.orderedInsert]
    rcases List.pairwise_cons.mp hp with ⟨hbt, hpt⟩
    by_cases hab : r a b
    · rw [if_pos hab]
      refine List.pairwise_cons.mpr ⟨?_, hp⟩
      intro y hy
      rcases List.mem_cons.mp hy with rfl | hyt
      · exact hstop y (by simp) hab
      · exact hprop b (by simp) hab y (by simp [hyt]) (hbt y hyt)
    · rw [if_neg hab]
      refine List.pairwise_cons.mpr ⟨?_, ?_⟩
      · intro y hy
        rcases (List.mem_orderedInsert _).mp hy with rfl | hyt
        · exact hpass b (by simp) hab
        · exact hbt y hyt
      · exact pairwise_orderedInsert r p a t hpt
          (fun x hx => hpass x (by simp [hx]))
          (fun x hx => hstop x (by simp [hx]))
          (fun x hx hr y hy => hprop x (by simp [hx]) hr y (by simp [hy]))

lemma pairwise_insertionSort (r : Vehicle → Vehicle → Prop) [DecidableRel r]
    (p : Vehicle → Vehicle → Prop)
    (hpass : ∀ a x, ¬ r a x → p x a)
    (hstop : ∀ a x, r a x → p a x)
    (hprop : ∀ a x, r a x → ∀ y, p x y → p a y) :
    ∀ l : List Vehicle, (l.insertionSort r).Pairwise p
  | [] => by simp
  | b :: t => by
    rw [List.insertionSort]
    exact pairwise_orderedInsert r p b _ (pairwise_insertionSort r p hpass hstop hprop t)
      (fun x _ => hpass b x) (fun x _ => hstop b x) (fun x _ hr y _ => hprop b x hr y)

lemma cmpLe_desc_of_nullish_right (f : String) (a b : Vehicle)
    (hb : isNullish (getField b f) = true) : cmpLe f "desc" a b = true := by
  by_cases ha : isNullish (getField a f) = true
  · simp [cmpLe, vehicleCmp, ha, hb]
  · simp [cmpLe, vehicleCmp, ha, hb]

lemma cmpLe_desc_of_nullish_left (f : String) (a b : Vehicle)
    (ha : isNullish (getField a f) = true) (hb : isNullish (getField b f) = false) :
    cmpLe f "desc" a b = false := by
  simp [cmpLe, vehicleCmp, ha, hb]

lemma cmpLe_asc_of_nullish_left (f : String) (a b : Vehicle)
    (ha : isNullish (getField a f) = true) : cmpLe f "asc" a b = true := by
  by_cases hb : isNullish (getField b f) = true
  · simp [cmpLe, vehicleCmp, ha, hb]
  · simp [cmpLe, vehicleCmp, ha, hb]

lemma cmpLe_asc_of_nullish_right (f : String) (a b : Vehicle)
    (ha : isNullish (getField a f) = false) (hb : isNullish (getField b f) = true) :
    cmpLe f "asc" a b = false := by
  simp [cmpLe, vehicleCmp, ha, hb]

lemma vehicleCmp_numeric_desc (f : String) (hf : f ∈ numericFields) (a b : Vehicle)
    (ha : isNullish (getField a f) = false) (hb : isNullish (getField b f) = false) :
    vehicleCmp f "desc" a b = some (coerce0 (getField b f) - coerce0 (getField a f)) := by
  simp [vehicleCmp, ha, hb, hf]

lemma vehicleCmp_numeric_asc (f : String) (hf : f ∈ numericFields) (a b : Vehicle)
    (ha : isNullish (getField a f) = false) (hb : isNullish (getField b f) = false) :
    vehicleCmp f "asc" a b = some (coerce0 (getField a f) - coerce0 (getField b f)) := by
  simp [vehicleCmp, ha, hb, hf]

lemma cmpLe_desc_numeric (f : String) (hf : f ∈ numericFields) (a b : Vehicle)
    (ha : isNullish (getField a f) = false) (hb : isNullish (getField b f) = false) :
    cmpLe f "desc" a b = decide (coerce0 (getField b f) ≤ coerce0 (getField a f)) := by
  simp [cmpLe, vehicleCmp_numeric_desc f hf a b ha hb, sub_nonpos]

lemma cmpLe_asc_numeric (f : String) (hf : f ∈ numericFields) (a b : Vehicle)
    (ha : isNullish (getField a f) = false) (hb : isNullish (getField b f) = false) :
    cmpLe f "asc" a b = decide (coerce0 (getField a f) ≤ coerce0 (getField b f)) := by
  simp [cmpLe, vehicleCmp_numeric_asc f hf a b ha hb, sub_nonpos]

lemma cmpLe_desc_total (f : String) (hf : f ∈ numericFields) (a b : Vehicle) :
    cmpLe f "desc" a b = true ∨ cmpLe f "desc" b a = true := by
  by_cases ha : isNullish (getField a f) = true
  · exact Or.inr (cmpLe_desc_of_nullish_right f b a ha)
  · by_cases hb : isNullish (getField b f) = true
    · exact Or.inl (cmpLe_desc_of_nullish_right f a b hb)
    · rw [cmpLe_desc_numeric f hf a b (by simpa using ha) (by simpa using hb),
        cmpLe_desc_numeric f hf b a (by simpa using hb) (by simpa using ha)]
      rcases le_total (coerce0 (getField b f)) (coerce0 (getField a f)) with h | h
      · exact Or.inl (by simpa using h)
      · exact Or.inr (by simpa using h)

lemma cmpLe_desc_trans (f : String) (hf : f ∈ numericFields) (a b c : Vehicle)
    (hab : cmpLe f "desc" a b = true) (hbc : cmpLe f "desc" b c = true) :
    cmpLe f "desc" a c = true := by
  by_cases hc : isNullish (getField c f) = true
  · exact cmpLe_desc_of_nullish_right f a c hc
  · replace hc : isNullish (getField c f) = false := by simpa using hc
    by_cases hb : isNullish (getField b f) = true
    · rw [cmpLe_desc_of_nullish_left f b c hb hc] at hbc
      exact absurd hbc (by simp)
    · replace hb : isNullish (getField b f) = false := by simpa using hb
      by_cases ha : isNullish (getField a f) = true
      · rw [cmpLe_desc_of_nullish_left f a b ha hb] at hab
        exact absurd hab (by simp)
      · replace ha : isNullish (getField a f) = false := by simpa using ha
        rw [cmpLe_desc_numeric f hf a b ha hb] at hab
        rw [cmpLe_desc_numeric f hf b c hb hc] at hbc
        rw [cmpLe_desc_numeric f hf a c ha hc]
        simp only [decide_eq_true_eq] at hab hbc ⊢
        exact le_trans hbc hab

lemma cmpLe_asc_total (f : String) (hf : f ∈ numericFields) (a b : Vehicle) :
    cmpLe f "asc" a b = true ∨ cmpLe f "asc" b a = true := by
  by_cases ha : isNullish (getField a f) = true
  · exact Or.inl (cmpLe_asc_of_nullish_left f a b ha)
  · by_cases hb : isNullish (getField b f) = true
    · exact Or.inr (cmpLe_asc_of_nullish_left f b a hb)
    · rw [cmpLe_asc_numeric f hf a b (by simpa using ha) (by simpa using hb),
        cmpLe_asc_numeric f hf b a (by simpa using hb) (by simpa using ha)]
      rcases le_total (coerce0 (getField a f)) (coerce0 (getField b f)) with h | h
      · exact Or.inl (by simpa using h)
      · exact Or.inr (by simpa using h)

lemma cmpLe_asc_trans (f : String) (hf : f ∈ numericFields) (a b c : Vehicle)
    (hab : cmpLe f "asc" a b = true) (hbc : cmpLe f "asc" b c = true) :
    cmpLe f "asc" a c = true := by
  by_cases ha : isNullish (getField a f) = true
  · exact cmpLe_asc_of_nullish_left f a c ha
  · replace ha : isNullish (getField a f) = false := by simpa using ha
    by_cases hb : isNullish (getField b f) = true
    · rw [cmpLe_asc_of_nullish_right f a b ha hb] at hab
      exact absurd hab (by simp)
    · replace hb : isNullish (getField b f) = false := by simpa using hb
      by_cases hc : isNullish (getField c f) = true
      · rw [cmpLe_asc_of_nullish_right f b c hb hc] at hbc
        exact absurd hbc (by simp)
      · replace hc : isNullish (getField c f) = false := by simpa using hc
        rw [cmpLe_asc_numeric f hf a b ha hb] at hab
        rw [cmpLe_asc_numeric f hf b c hb hc] at hbc
        rw [cmpLe_asc_numeric f hf a c ha hc]
        simp only [decide_eq_true_eq] at hab hbc ⊢
        exact le_trans hab hbc

lemma sortVehicles_perm (f o : String) (l : List Vehicle) :
    List.Perm (sortVehicles f o l) l :=
  List.perm_insertionSort _ l

lemma sortVehicles_nulls_last_desc (f : String) (l : List Vehicle) :
    (sortVehicles f "desc" l).Pairwise
      (fun a b => isNullish (getField a f) = true → isNullish (getField b f) = true) := by
  refine pairwise_insertionSort _ _ ?_ ?_ ?_ l
  · intro a x hrx hx
    exact absurd (cmpLe_desc_of_nullish_right f a x hx) hrx
  · intro a x hr ha
    by_cases hx : isNullish (getField x f) = true
    · exact hx
    · rw [cmpLe_desc_of_nullish_left f a x ha (by simpa using hx)] at hr
      exact absurd hr (by simp)
  · intro a x hr y hxy ha
    by_cases hx : isNullish (getField x f) = true
    · exact hxy hx
    · rw [cmpLe_desc_of_nullish_left f a x ha (by simpa using hx)] at hr
      exact absurd hr (by simp)

lemma sortVehicles_nulls_first_asc (f : String) (l : List Vehicle) :
    (sortVehicles f "asc" l).Pairwise
      (fun a b => isNullish (getField b f) = true → isNullish (getField a f) = true) := by
  refine pairwise_insertionSort _ _ ?_ ?_ ?_ l
  · intro a x hrx ha
    exact absurd (cmpLe_asc_of_nullish_left f a x ha) hrx
  · intro a x hr hx
    by_cases ha : isNullish (getField a f) = true
    · exact ha
    · rw [cmpLe_asc_of_nullish_right f a x (by simpa using ha) hx] at hr
      exact absurd hr (by simp)
  · intro a x hr y hxy hy
    by_cases ha : isNullish (getField a f) = true
    · exact ha
    · rw [cmpLe_asc_of_nullish_right f a x (by simpa using ha) (hxy hy)] at hr
      exact absurd hr (by simp)

lemma sortVehicles_pairwise_desc (f : String) (hf : f ∈ numericFields) (l : List Vehicle) :
    (sortVehicles f "desc" l).Pairwise (fun a b => cmpLe f "desc" a b = true) := by
  refine pairwise_insertionSort _ _ ?_ ?_ ?_ l
  · intro a x hrx
    rcases cmpLe_desc_total f hf a x with h | h
    · exact absurd h hrx
    · exact h
  · exact fun a x h => h
  · exact fun a x hax y hxy => cmpLe_desc_trans f hf a x y hax hxy

lemma sortVehicles_pairwise_asc (f : String) (hf : f ∈ numericFields) (l : List Vehicle) :
    (sortVehicles f "asc" l).Pairwise (fun a b => cmpLe f "asc" a b = true) := by
  refine pairwise_insertionSort _ _ ?_ ?_ ?_ l
  · intro a x hrx
    rcases cmpLe_asc_total f hf a x with h | h
    · exact absurd h hrx
    · exact h
  · exact fun a x h => h
  · exact fun a x hax y hxy => cmpLe_asc_trans f hf a x y hax hxy

lemma sortVehicles_desc_head_max (f : String) (hf : f ∈ numericFields)
    (l : List Vehicle) (h : Vehicle) (t : List Vehicle)
    (hs : sortVehicles f "desc" l = h :: t)
    (hex : ∃ x ∈ l, isNullish (getField x f) = false) :
    isNullish (getField h f) = false ∧
      ∀ x ∈ l, isNullish (getField x f) = false →
        coerce0 (getField x f) ≤ coerce0 (getField h f) := by
  have hpw := sortVehicles_pairwise_desc f hf l
  rw [hs] at hpw
  rcases List.pairwise_cons.mp hpw with ⟨hhead, _⟩
  have hmem : ∀ x ∈ l, x = h ∨ x ∈ t := by
    intro x hx
    have : x ∈ h :: t := hs ▸ ((sortVehicles_perm f "desc" l).mem_iff.mpr hx)
    exact List.mem_cons.mp this
  have hh : isNullish (getField h f) = false := by
    rcases hex with ⟨x0, hx0l, hx0⟩
    by_cases hhn : isNullish (getField h f) = true
    · rcases hmem x0 hx0l with rfl | hx0t
      · rw [hx0] at hhn; exact absurd hhn (by simp)
      · have := hhead x0 hx0t
        rw [cmpLe_desc_of_nullish_left f h x0 hhn hx0] at this
        exact absurd this (by simp)
    · simpa using hhn
  refine ⟨hh, ?_⟩
  intro x hxl hx
  rcases hmem x hxl with rfl | hxt
  · exact le_refl _
  · have := hhead x hxt
    rw [cmpLe_desc_numeric f hf h x hh hx] at this
    simpa using this

lemma sortVehicles_asc_head_min (f : String) (hf : f ∈ numericFields)
    (l : List Vehicle) (h : Vehicle) (t : List Vehicle)
    (hs : sortVehicles f "asc" l = h :: t)
    (hall : ∀ x ∈ l, isNullish (getField x f) = false) :
    ∀ x ∈ l, coerce0 (getField h f) ≤ coerce0 (getField x f) := by
  have hpw := sortVehicles_pairwise_asc f hf l
  rw [hs] at hpw
  rcases List.pairwise_cons.mp hpw with ⟨hhead, _⟩
  have hmem : ∀ x ∈ l, x = h ∨ x ∈ t := by
    intro x hx
    have : x ∈ h :: t := hs ▸ ((sortVehicles_perm f "asc" l).mem_iff.mpr hx)
    exact List.mem_cons.mp this
  have hhl : h ∈ l := by
    have : h ∈ h :: t := by simp
    exact (sortVehicles_perm f "asc" l).mem_iff.mp (hs ▸ this)
  intro x hxl
  rcases hmem x hxl with rfl | hxt
  · exact le_refl _
  · have := hhead x hxt
    rw [cmpLe_asc_numeric f hf h x (hall h hhl) (hall x hxl)] at this
    simpa using this

/-! ### Claim theorems -/

/-- C1 counterexample: the claim asserts that null-valued entries are placed
at the end of the sorted list in both directions, but sorting ascending by
asking_price places the null-valued vehicle first, ahead of a non-null one. -/
theorem C1_counterexample :
    sortVehicles "asking_price" "asc" [cexPresent, cexNull] = [cexNull, cexPresent] ∧
    isNullish (getField cexNull "asking_price") = true ∧
    isNullish (getField cexPresent "asking_price") = false := by
  decide

/-- C1 (amended): for every numeric sort field, descending-then-ascending
sorting inverts the extremes among the non-null entries: the head of the
descending result has the maximal coerced value (whenever some entry is
non-null), the head of the ascending result has the minimal coerced value
whenever no entry is null; null/undefined entries are placed at the end in
descending order but at the start in ascending order; both sorts are
permutations of the input. -/
theorem C1_sort_extremes_amended (f : String) (hf : f ∈ numericFields) (l : List Vehicle) :
    (sortVehicles f "desc" l).Pairwise
      (fun a b => isNullish (getField a f) = true → isNullish (getField b f) = true) ∧
    (sortVehicles f "asc" l).Pairwise
      (fun a b => isNullish (getField b f) = true → isNullish (getField a f) = true) ∧
    (∀ (h : Vehicle) (t : List Vehicle), sortVehicles f "desc" l = h :: t →
       (∃ x ∈ l, isNullish (getField x f) = false) →
       isNullish (getField h f) = false ∧
         ∀ x ∈ l, isNullish (getField x f) = false →
           coerce0 (getField x f) ≤ coerce0 (getField h f)) ∧
    (∀ (h : Vehicle) (t : List Vehicle), sortVehicles f "asc" l = h :: t →
       (∀ x ∈ l, isNullish (getField x f) = false) →
       ∀ x ∈ l, coerce0 (getField h f) ≤ coerce0 (getField x f)) ∧
    List.Perm (sortVehicles f "desc" l) l ∧ List.Perm (sortVehicles f "asc" l) l :=
  ⟨sortVehicles_nulls_last_desc f l, sortVehicles_nulls_first_asc f l,
   fun h t hs hex => sortVehicles_desc_head_max f hf l h t hs hex,
   fun h t hs hall => sortVehicles_asc_head_min f hf l h t hs hall,
   sortVehicles_perm f "desc" l, sortVehicles_perm f "asc" l⟩

/-- Witness for C1's amended theorem at the field asking_price and a concrete
two-vehicle list. -/
theorem C1_sort_extremes_amended_witness :
    "asking_price" ∈ numericFields ∧
    ((sortVehicles "asking_price" "desc" [cexPresent, cexNull]).Pairwise
      (fun a b => isNullish (getField a "asking_price") = true →
        isNullish (getField b "asking_price") = true) ∧
    (sortVehicles "asking_price" "asc" [cexPresent, cexNull]).Pairwise
      (fun a b => isNullish (getField b "asking_price") = true →
        isNullish (getField a "asking_price") = true) ∧
    (∀ (h : Vehicle) (t : List Vehicle),
       sortVehicles "asking_price" "desc" [cexPresent, cexNull] = h :: t →
       (∃ x ∈ [cexPresent, cexNull], isNullish (getField x "asking_price") = false) →
       isNullish (getField h "asking_price") = false ∧
         ∀ x ∈ [cexPresent, cexNull], isNullish (getField x "asking_price") = false →
           coerce0 (getField x "asking_price") ≤ coerce0 (getField h "asking_price")) ∧
    (∀ (h : Vehicle) (t : List Vehicle),
       sortVehicles "asking_price" "asc" [cexPresent, cexNull] = h :: t →
       (∀ x ∈ [cexPresent, cexNull], isNullish (getField x "asking_price") = false) →
       ∀ x ∈ [cexPresent, cexNull],
         coerce0 (getField h "asking_price") ≤ coerce0 (getField x "asking_price")) ∧
    List.Perm (sortVehicles "asking_price" "desc" [cexPresent, cexNull]) [cexPresent, cexNull] ∧
    List.Perm (sortVehicles "asking_price" "asc" [cexPresent, cexNull]) [cexPresent, cexNull]) :=
  ⟨by decide, C1_sort_extremes_amended "asking_price" (by decide) [cexPresent, cexNull]⟩

/-- C2: the comparator coerces both values of a numeric sort field with
parseFloat-or-0 and returns b − a for "desc" and a − b for "asc"; for every
other field the comparison subtracts the ToNumber coercions (so it likewise
compares coerced numeric values, and values that do not coerce make the pair
effectively unordered — the comparator keeps either order); entries whose
sort-field value is null/undefined sort last in descending order and first in
ascending order. -/
theorem C2_sort_comparator :
    (∀ f, f ∈ numericFields → ∀ a b : Vehicle,
       isNullish (getField a f) = false → isNullish (getField b f) = false →
       vehicleCmp f "desc" a b = some (coerce0 (getField b f) - coerce0 (getField a f)) ∧
       vehicleCmp f "asc" a b = some (coerce0 (getField a f) - coerce0 (getField b f))) ∧
    (∀ f, f ∉ numericFields → ∀ a b : Vehicle,
       isNullish (getField a f) = false → isNullish (getField b f) = false →
       (∀ x y : ℚ, toNumber (getField a f) = some x → toNumber (getField b f) = some y →
          vehicleCmp f "desc" a b = some (y - x) ∧ vehicleCmp f "asc" a b = some (x - y)) ∧
       ((toNumber (getField a f) = none ∨ toNumber (getField b f) = none) →
          cmpLe f "desc" a b = true ∧ cmpLe f "desc" b a = true ∧
          cmpLe f "asc" a b = true ∧ cmpLe f "asc" b a = true)) ∧
    (∀ (f : String) (l : List Vehicle),
       (sortVehicles f "desc" l).Pairwise
         (fun a b => isNullish (getField a f) = true → isNullish (getField b f) = true) ∧
       (sortVehicles f "asc" l).Pairwise
         (fun a b => isNullish (getField b f) = true → isNullish (getField a f) = true)) := by
  refine ⟨?_, ?_, ?_⟩
  · intro f hf a b ha hb
    exact ⟨vehicleCmp_numeric_desc f hf a b ha hb, vehicleCmp_numeric_asc f hf a b ha hb⟩
  · intro f hf a b ha hb
    constructor
    · intro x y hx hy
      constructor
      · simp [vehicleCmp, ha, hb, hf, jsSub, hx, hy]
      · simp [vehicleCmp, ha, hb, hf, jsSub, hx, hy]
    · intro hnan
      rcases hnan with hn | hn
      · refine ⟨?_, ?_, ?_, ?_⟩ <;> simp [cmpLe, vehicleCmp, ha, hb, hf, jsSub, hn]
      · refine ⟨?_, ?_, ?_, ?_⟩ <;> simp [cmpLe, vehicleCmp, ha, hb, hf, jsSub, hn]
  · intro f l
    exact ⟨sortVehicles_nulls_last_desc f l, sortVehicles_nulls_first_asc f l⟩

/-- Witness for C2 at the numeric field year and two concrete vehicles. -/
theorem C2_sort_comparator_witness :
    ("year" ∈ numericFields ∧
      isNullish (getField wYear1 "year") = false ∧
      isNullish (getField wYear2 "year") = false) ∧
    (vehicleCmp "year" "desc" wYear1 wYear2
        = some (coerce0 (getField wYear2 "year") - coerce0 (getField wYear1 "year")) ∧
     vehicleCmp "year" "asc" wYear1 wYear2
        = some (coerce0 (getField wYear1 "year") - coerce0 (getField wYear2 "year"))) :=
  ⟨⟨by decide, by decide, by decide⟩,
   C2_sort_comparator.1 "year" (by decide) wYear1 wYear2 (by decide) (by decide)⟩

lemma keepVehicle_priceMax (p : String) (hp : p ≠ "") (v : Vehicle) :
    keepVehicle { priceMax := p } v = !(jsGTn v.asking_price (jsParseFloat p)) := by
  by_cases h : jsGTn v.asking_price (jsParseFloat p) = true
  · simp [keepVehicle, hp, h]
  · simp only [Bool.not_eq_true] at h
    simp [keepVehicle, hp, h]

lemma keepVehicle_yearMin (y : String) (hy : y ≠ "") (v : Vehicle) :
    keepVehicle { yearMin := y } v = !(jsLTn v.year (jsParseInt y)) := by
  by_cases h : jsLTn v.year (jsParseInt y) = true
  · simp [keepVehicle, hy, h]
  · simp only [Bool.not_eq_true] at h
    simp [keepVehicle, hy, h]

lemma keepVehicle_minProfit (m : String) (hm : m ≠ "") (v : Vehicle) :
    keepVehicle { minProfit := m } v
      = !(jsLTn (jsOr v.est_profit (.num 0)) (jsParseFloat m)) := by
  by_cases h : jsLTn (jsOr v.est_profit (.num 0)) (jsParseFloat m) = true
  · simp [keepVehicle, hm, h]
  · simp only [Bool.not_eq_true] at h
    simp [keepVehicle, hm, h]

lemma mem_filterVehicles (fl : Filters) (l : List Vehicle) (v : Vehicle) :
    v ∈ filterVehicles fl l ↔ v ∈ l ∧ keepVehicle fl v = true :=
  List.mem_filter

/-- C3: the client-side filter keeps exactly the vehicles that pass all set
conditions: with priceMax set, numeric asking prices above the bound are
rejected (so only prices ≤ P remain); with yearMin set, numeric years below
the bound are rejected; with minProfit set, est_profit (missing defaulting to
0 through the || operator) below the bound is rejected; with no filter set the
list is returned unchanged; and the concrete scenario with priceMax = 50000
keeps only vehicle id 1. -/
theorem C3_filter_spec :
    (∀ (fl : Filters) (l : List Vehicle) (v : Vehicle),
       v ∈ filterVehicles fl l ↔ v ∈ l ∧ keepVehicle fl v = true) ∧
    (∀ (l : List Vehicle) (p : String) (P : ℚ), p ≠ "" → jsParseFloat p = some P →
       (∀ v : Vehicle, v ∈ filterVehicles { priceMax := p } l ↔
          v ∈ l ∧ jsGTn v.asking_price (some P) = false) ∧
       (∀ (v : Vehicle) (x : ℚ), toNumber v.asking_price = some x →
          (v ∈ filterVehicles { priceMax := p } l ↔ v ∈ l ∧ x ≤ P))) ∧
    (∀ (l : List Vehicle) (y : String) (Y : ℚ), y ≠ "" → jsParseInt y = some Y →
       (∀ v : Vehicle, v ∈ filterVehicles { yearMin := y } l ↔
          v ∈ l ∧ jsLTn v.year (some Y) = false) ∧
       (∀ (v : Vehicle) (x : ℚ), toNumber v.year = some x →
          (v ∈ filterVehicles { yearMin := y } l ↔ v ∈ l ∧ Y ≤ x))) ∧
    (∀ (l : List Vehicle) (m : String) (M : ℚ), m ≠ "" → jsParseFloat m = some M →
       ∀ (v : Vehicle) (e : ℚ), toNumber (jsOr v.est_profit (.num 0)) = some e →
         (v ∈ filterVehicles { minProfit := m } l ↔ v ∈ l ∧ M ≤ e)) ∧
    (∀ l : List Vehicle, filterVehicles {} l = l) ∧
    filterVehicles { priceMax := "50000" } [scenV1, scenV2] = [scenV1] := by
  refine ⟨fun fl l v => mem_filterVehicles fl l v, ?_, ?_, ?_, ?_, ?_⟩
  · intro l p P hp hP
    constructor
    · intro v
      rw [mem_filterVehicles, keepVehicle_priceMax p hp v, hP]
      simp
    · intro v x hx
      rw [mem_filterVehicles, keepVehicle_priceMax p hp v, hP]
      simp [jsGTn, hx, not_lt]
  · intro l y Y hy hY
    constructor
    · intro v
      rw [mem_filterVehicles, keepVehicle_yearMin y hy v, hY]
      simp
    · intro v x hx
      rw [mem_filterVehicles, keepVehicle_yearMin y hy v, hY]
      simp [jsLTn, hx, not_lt]
  · intro l m M hm hM v e he
    rw [mem_filterVehicles, keepVehicle_minProfit m hm v, hM]
    simp [jsLTn, he, not_lt]
  · intro l
    exact List.filter_eq_self.mpr (fun v _ => by simp [keepVehicle])
  · decide

/-- Witness for C3 at priceMax = "50000" and the scenario vehicle. -/
theorem C3_filter_spec_witness :
    (("50000" : String) ≠ "" ∧ jsParseFloat "50000" = some 50000 ∧
      toNumber scenV1.asking_price = some 30000) ∧
    (scenV1 ∈ filterVehicles { priceMax := "50000" } [scenV1, scenV2] ↔
      scenV1 ∈ [scenV1, scenV2] ∧ (30000 : ℚ) ≤ 50000) :=
  ⟨⟨by decide, by decide, by decide⟩,
   (C3_filter_spec.2.1 [scenV1, scenV2] "50000" 50000 (by decide) (by decide)).2
     scenV1 30000 (by decide)⟩

/-- C9 counterexample: the claim says a vehicle whose asking_price is absent
(null/undefined) is kept whenever priceMax is set, but with priceMax "-1" a
vehicle with an explicitly null asking_price is rejected, because null coerces
to 0 in the relational comparison and 0 > -1. -/
theorem C9_counterexample :
    filterVehicles { priceMax := "-1" } [c9NullPrice] = [] ∧
    c9NullPrice.asking_price = JSVal.jnull := by
  constructor
  · decide
  · rfl

/-- C9 (amended): a vehicle whose asking_price is absent (undefined) is always
kept when priceMax is set, but an explicitly null asking_price coerces to 0
and is kept exactly when 0 ≤ priceMax; a vehicle whose year is absent
(undefined) is always kept when yearMin is set, but an explicitly null year is
kept exactly when yearMin ≤ 0 (so it is rejected by any positive yearMin);
only the est_profit condition substitutes 0 for a missing value via the ||
operator, and a vehicle with missing est_profit is kept exactly when
minProfit ≤ 0. -/
theorem C9_filter_missing_amended
    (p : String) (P : ℚ) (hp : p ≠ "") (hP : jsParseFloat p = some P)
    (y : String) (Y : ℚ) (hy : y ≠ "") (hY : jsParseInt y = some Y)
    (m : String) (M : ℚ) (hm : m ≠ "") (hM : jsParseFloat m = some M)
    (l : List Vehicle) (v : Vehicle) :
    (v.asking_price = JSVal.absent → (v ∈ filterVehicles { priceMax := p } l ↔ v ∈ l)) ∧
    (v.asking_price = JSVal.jnull →
       (v ∈ filterVehicles { priceMax := p } l ↔ v ∈ l ∧ 0 ≤ P)) ∧
    (v.year = JSVal.absent → (v ∈ filterVehicles { yearMin := y } l ↔ v ∈ l)) ∧
    (v.year = JSVal.jnull →
       (v ∈ filterVehicles { yearMin := y } l ↔ v ∈ l ∧ Y ≤ 0)) ∧
    (isNullish v.est_profit = true →
       (v ∈ filterVehicles { minProfit := m } l ↔ v ∈ l ∧ M ≤ 0)) := by
  refine ⟨?_, ?_, ?_, ?_, ?_⟩
  · intro hv
    rw [mem_filterVehicles, keepVehicle_priceMax p hp v, hv]
    simp [jsGTn, toNumber]
  · intro hv
    rw [mem_filterVehicles, keepVehicle_priceMax p hp v, hv, hP]
    simp [jsGTn, toNumber, not_lt]
  · intro hv
    rw [mem_filterVehicles, keepVehicle_yearMin y hy v, hv]
    simp [jsLTn, toNumber]
  · intro hv
    rw [mem_filterVehicles, keepVehicle_yearMin y hy v, hv, hY]
    simp [jsLTn, toNumber, not_lt]
  · intro hv
    have hor : jsOr v.est_profit (.num 0) = .num 0 := by
      cases hv' : v.est_profit <;> simp_all [isNullish, jsOr, truthy]
    rw [mem_filterVehicles, keepVehicle_minProfit m hm v, hor, hM]
    simp [jsLTn, toNumber, not_lt]

/-- Witness for C9's amended theorem at concrete filter strings and the
all-absent vehicle. -/
theorem C9_filter_missing_amended_witness :
    (("50000" : String) ≠ "" ∧ jsParseFloat "50000" = some 50000 ∧
      ("2015" : String) ≠ "" ∧ jsParseInt "2015" = some 2015 ∧
      ("1000" : String) ≠ "" ∧ jsParseFloat "1000" = some 1000 ∧
      c9Absent.asking_price = JSVal.absent) ∧
    (c9Absent ∈ filterVehicles { priceMax := "50000" } [c9Absent] ↔ c9Absent ∈ [c9Absent]) :=
  ⟨⟨by decide, by decide, by decide, by decide, by decide, by decide, rfl⟩,
   (C9_filter_missing_amended "50000" 50000 (by decide) (by decide)
      "2015" 2015 (by decide) (by decide)
      "1000" 1000 (by decide) (by decide) [c9Absent] c9Absent).1 rfl⟩

/-- C4: after a successful scrape the displayed list is exactly the scraped
vehicles after client-side normalisation — missing seller_type defaults to the
per-operation value (unknown for quick and comprehensive, auction for
enthusiast, private for private-party), missing source defaults to unknown,
missing status defaults to new — and a response with an empty vehicles array
yields an empty displayed list regardless of the previous list. -/
theorem C4_scrape_replaces (op : ScrapeOp) :
    (∀ (st : AppState) (resp : ScrapeResponse),
       (scrapeSuccess op st resp).vehicles = scrapeResultVehicles op resp) ∧
    (∀ (resp : ScrapeResponse) (vs : List Vehicle), resp.vehicles = some vs → vs ≠ [] →
       scrapeResultVehicles op resp = vs.map (normalizeScraped (defaultSellerType op))) ∧
    (∀ v : Vehicle, v.seller_type = JSVal.absent →
       (normalizeScraped (defaultSellerType op) v).seller_type
         = JSVal.str (defaultSellerType op)) ∧
    (∀ v : Vehicle, v.source = JSVal.absent →
       (normalizeScraped (defaultSellerType op) v).source = JSVal.str "unknown") ∧
    (∀ v : Vehicle, v.status = JSVal.absent →
       (normalizeScraped (defaultSellerType op) v).status = JSVal.str "new") ∧
    (defaultSellerType .quick = "unknown" ∧ defaultSellerType .comprehensive = "unknown" ∧
      defaultSellerType .enthusiast = "auction" ∧
      defaultSellerType .privateParty = "private") ∧
    (∀ st : AppState, (scrapeSuccess op st ⟨0, some []⟩).vehicles = []) := by
  refine ⟨fun st resp => rfl, ?_, ?_, ?_, ?_, ⟨rfl, rfl, rfl, rfl⟩, ?_⟩
  · intro resp vs hvs hne
    simp [scrapeResultVehicles, hvs, hne]
  · intro v hv
    simp [normalizeScraped, hv, jsOr, truthy]
  · intro v hv
    simp [normalizeScraped, hv, jsOr, truthy]
  · intro v hv
    simp [normalizeScraped, hv, jsOr, truthy]
  · intro st
    simp [scrapeSuccess, scrapeResultVehicles]

/-- Witness for C4 at the quick scrape and a one-vehicle response. -/
theorem C4_scrape_replaces_witness :
    ((⟨1, some [c9Absent]⟩ : ScrapeResponse).vehicles = some [c9Absent] ∧
      ([c9Absent] : List Vehicle) ≠ []) ∧
    scrapeResultVehicles .quick ⟨1, some [c9Absent]⟩
      = [c9Absent].map (normalizeScraped (defaultSellerType .quick)) :=
  ⟨⟨rfl, by decide⟩,
   (C4_scrape_replaces .quick).2.1 ⟨1, some [c9Absent]⟩ [c9Absent] rfl (by decide)⟩

lemma mem_searchParams (q : String) (fl : Filters) (k val : String) :
    (k, val) ∈ searchParams q fl ↔
      (k = "q" ∧ val = q) ∨
      (fl.zipCode ≠ "" ∧ k = "zip_code" ∧ val = fl.zipCode) ∨
      (fl.distance ≠ "" ∧ k = "distance" ∧ val = fl.distance) ∨
      (fl.priceMax ≠ "" ∧ k = "price_max" ∧ val = fl.priceMax) ∨
      (fl.yearMin ≠ "" ∧ k = "year_min" ∧ val = fl.yearMin) := by
  simp only [searchParams, List.mem_append, List.mem_cons, List.not_mem_nil, or_false]
  split_ifs with h1 h2 h3 h4 <;> simp_all [Prod.ext_iff] <;> tauto

/-- C5: with an empty or whitespace-only query, handleSearch falls back to
loadDeals; otherwise it issues the /api/search request with q and exactly the
zip code, distance, max price and min year filters, each only when set, never
the min-profit filter, and a success replaces the vehicle list. -/
theorem C5_search_spec :
    (∀ st : AppState, jsTrim st.searchQuery = "" →
       handleSearchEffect st = SearchEffect.deals) ∧
    (∀ st : AppState, jsTrim st.searchQuery ≠ "" →
       handleSearchEffect st
         = SearchEffect.searchReq (searchParams st.searchQuery st.filters)) ∧
    (∀ (q : String) (fl : Filters),
       ("q", q) ∈ searchParams q fl ∧
       (∀ k val, (k, val) ∈ searchParams q fl →
          k = "q" ∨ k = "zip_code" ∨ k = "distance" ∨ k = "price_max" ∨ k = "year_min") ∧
       ("min_profit" ∉ (searchParams q fl).map Prod.fst) ∧
       (fl.zipCode ≠ "" ↔ ("zip_code", fl.zipCode) ∈ searchParams q fl) ∧
       (fl.distance ≠ "" ↔ ("distance", fl.distance) ∈ searchParams q fl) ∧
       (fl.priceMax ≠ "" ↔ ("price_max", fl.priceMax) ∈ searchParams q fl) ∧
       (fl.yearMin ≠ "" ↔ ("year_min", fl.yearMin) ∈ searchParams q fl)) ∧
    (∀ (st : AppState) (vs : List Vehicle), (searchComplete st (.ok vs)).vehicles = vs) := by
  refine ⟨?_, ?_, ?_, fun st vs => rfl⟩
  · intro st h
    simp [handleSearchEffect, h]
  · intro st h
    simp [handleSearchEffect, h]
  · intro q fl
    refine ⟨(mem_searchParams q fl "q" q).mpr (Or.inl ⟨rfl, rfl⟩), ?_, ?_, ?_, ?_, ?_, ?_⟩
    · intro k val hk
      rcases (mem_searchParams q fl k val).mp hk with h | h | h | h | h
      · exact Or.inl h.1
      · exact Or.inr (Or.inl h.2.1)
      · exact Or.inr (Or.inr (Or.inl h.2.1))
      · exact Or.inr (Or.inr (Or.inr (Or.inl h.2.1)))
      · exact Or.inr (Or.inr (Or.inr (Or.inr h.2.1)))
    · intro hmem
      rcases List.mem_map.mp hmem with ⟨⟨k, val⟩, hk, hfst⟩
      rcases (mem_searchParams q fl k val).mp hk with h | h | h | h | h <;>
        · obtain rfl := hfst
          simp_all
    · constructor
      · intro h
        exact (mem_searchParams q fl _ _).mpr (Or.inr (Or.inl ⟨h, rfl, rfl⟩))
      · intro h
        rcases (mem_searchParams q fl _ _).mp h with h | h | h | h | h <;> simp_all
    · constructor
      · intro h
        exact (mem_searchParams q fl _ _).mpr (Or.inr (Or.inr (Or.inl ⟨h, rfl, rfl⟩)))
      · intro h
        rcases (mem_searchParams q fl _ _).mp h with h | h | h | h | h <;> simp_all
    · constructor
      · intro h
        exact (mem_searchParams q fl _ _).mpr
          (Or.inr (Or.inr (Or.inr (Or.inl ⟨h, rfl, rfl⟩))))
      · intro h
        rcases (mem_searchParams q fl _ _).mp h with h | h | h | h | h <;> simp_all
    · constructor
      · intro h
        exact (mem_searchParams q fl _ _).mpr
          (Or.inr (Or.inr (Or.inr (Or.inr ⟨h, rfl, rfl⟩))))
      · intro h
        rcases (mem_searchParams q fl _ _).mp h with h | h | h | h | h <;> simp_all

/-- Witness for C5 at a whitespace-only query. -/
theorem C5_search_spec_witness :
    jsTrim stEmptyQuery.searchQuery = "" ∧
    handleSearchEffect stEmptyQuery = SearchEffect.deals :=
  ⟨by decide, C5_search_spec.1 stEmptyQuery (by decide)⟩

/-- C6: loadDeals requests the deals page with limit 20; on success the
response replaces the vehicle list, on failure the prior list is unchanged;
and in every execution the loading flag is set at call start and reset at
completion. -/
theorem C6_loadDeals_spec :
    loadDealsRequest = ("/deals", [("limit", "20")]) ∧
    (∀ (st : AppState) (vs : List Vehicle), (loadDealsRun st (.ok vs)).vehicles = vs) ∧
    (∀ st : AppState, (loadDealsRun st .err).vehicles = st.vehicles) ∧
    (∀ st : AppState, (loadDealsStart st).loading = true) ∧
    (∀ (st : AppState) (r : FetchResult (List Vehicle)), (loadDealsRun st r).loading = false) :=
  ⟨rfl, fun _ _ => rfl, fun _ => rfl, fun _ => rfl,
   fun st r => by cases r <;> rfl⟩

/-- C7: updateVehicleStatus sends the PUT mutation and re-runs loadDeals only
on success; on failure no reload happens and the vehicle list (indeed the
whole state) is left unchanged — there is no optimistic local update. -/
theorem C7_updateStatus_spec :
    (∀ (vehicleId : ℕ) (status : String),
       updateStatusRequest vehicleId status
         = ⟨"/vehicles/" ++ toString vehicleId, status⟩) ∧
    (∀ (st : AppState) (dealsResult : FetchResult (List Vehicle)),
       updateVehicleStatusRun st (.ok ()) dealsResult = loadDealsRun st dealsResult) ∧
    (∀ (st : AppState) (dealsResult : FetchResult (List Vehicle)),
       updateVehicleStatusRun st .err dealsResult = st ∧
       (updateVehicleStatusRun st .err dealsResult).vehicles = st.vehicles) :=
  ⟨fun _ _ => rfl, fun _ _ => rfl, fun _ _ => ⟨rfl, rfl⟩⟩

/-- C8: toggling a vehicle id twice returns the saved-set to its original
membership and the persisted local-storage value matches it; a single toggle
flips exactly that id's membership and immediately persists the whole set. -/
theorem C8_toggleSaved_spec :
    (∀ (s : Finset ℕ) (vehicleId : ℕ),
       toggleSaveVehicle (toggleSaveVehicle s vehicleId) vehicleId = s) ∧
    (∀ (s : Finset ℕ) (vehicleId j : ℕ),
       j ∈ toggleSaveVehicle s vehicleId ↔ if j = vehicleId then vehicleId ∉ s else j ∈ s) ∧
    (∀ (st : SavedState) (vehicleId : ℕ),
       (toggleSaveStep st vehicleId).storage = (toggleSaveStep st vehicleId).savedVehicles) ∧
    (∀ (st : SavedState) (vehicleId : ℕ),
       (toggleSaveStep (toggleSaveStep st vehicleId) vehicleId).savedVehicles
           = st.savedVehicles ∧
       (toggleSaveStep (toggleSaveStep st vehicleId) vehicleId).storage
           = st.savedVehicles) := by
  have hdouble : ∀ (s : Finset ℕ) (i : ℕ),
      toggleSaveVehicle (toggleSaveVehicle s i) i = s := by
    intro s i
    by_cases h : i ∈ s
    · have h1 : toggleSaveVehicle s i = s.erase i := by
        rw [toggleSaveVehicle, if_pos h]
      rw [h1, toggleSaveVehicle, if_neg (Finset.not_mem_erase i s)]
      exact Finset.insert_erase h
    · have h1 : toggleSaveVehicle s i = insert i s := by
        rw [toggleSaveVehicle, if_neg h]
      rw [h1, toggleSaveVehicle, if_pos (Finset.mem_insert_self i s)]
      exact Finset.erase_insert h
  refine ⟨hdouble, ?_, fun st i => rfl, ?_⟩
  · intro s i j
    by_cases hj : j = i
    · subst hj
      by_cases h : j ∈ s <;> simp [toggleSaveVehicle, h]
    · by_cases h : i ∈ s <;> simp [toggleSaveVehicle, h, hj]
  · intro st i
    constructor
    · show toggleSaveVehicle (toggleSaveVehicle st.savedVehicles i) i = st.savedVehicles
      exact hdouble st.savedVehicles i
    · show toggleSaveVehicle (toggleSaveVehicle st.savedVehicles i) i = st.savedVehicles
      exact hdouble st.savedVehicles i

/-- C10: every scrape operation invoked while the trimmed search query is
empty is a complete no-op: no request is issued and the state — vehicle
list, scraping flag, status message included — is unchanged. -/
theorem C10_scrape_empty_noop (op : ScrapeOp) (st : AppState)
    (h : jsTrim st.searchQuery = "") :
    scrapeRequest op st = ScrapeRequest.noRequest ∧ scrapeStart op st = st :=
  ⟨by simp [scrapeRequest, h], by simp [scrapeStart, h]⟩

/-- Witness for C10 at the quick scrape on the whitespace-query state. -/
theorem C10_scrape_empty_noop_witness :
    jsTrim stEmptyQuery.searchQuery = "" ∧
    (scrapeRequest .quick stEmptyQuery = ScrapeRequest.noRequest ∧
      scrapeStart .quick stEmptyQuery = stEmptyQuery) :=
  ⟨by decide, C10_scrape_empty_noop .quick stEmptyQuery (by decide)⟩
